import Mathlib

/-!
# TensorFleet — verification of the job-orchestration subsystem

Shallow embedding of the TensorFleet job orchestrator
(`job-orchestrator/main.py`), the storage auto-save endpoint
(`storage/main.py`, `storage/storage_manager.py`) and the monitoring /
fleet-scaling service (`monitoring/main.py`), together with theorems that
settle the specification claims about them.

Modelling conventions:
* JSON request bodies are association lists of `JVal` values; an empty
  list plays the role of Python's falsy `{}` / missing body.
* Wall-clock instants are abstract integer ticks passed explicitly.
* External effects (the Celery queue, MinIO, the `docker compose` scale
  command) are parameters: the queue is a function from task id to its
  current task view, the scale command is a success flag.
* Redis hashes holding job metadata are modelled as a `JobRecord`
  structure; the registry is an association list keyed by job id.
-/

/-- A scalar JSON value: string, number (modelled as a rational) or
boolean. -/
inductive JPrim where
  | s (v : String)
  | num (v : Rat)
  | b (v : Bool)
  deriving Repr, DecidableEq, Inhabited

/-- A JSON value as used by the request bodies of the services: a
scalar or a flat object of scalars (the services only ever read one
level of nesting — `hyperparameters`, `training_config`, `metadata`). -/
inductive JVal where
  | s (v : String)
  | num (v : Rat)
  | b (v : Bool)
  | obj (fields : List (String × JPrim))
  deriving Repr, DecidableEq, Inhabited

/-- Dictionary lookup on an association list (Python `dict.get`). -/
def jlookup (d : List (String × JVal)) (k : String) : Option JVal :=
  match d with
  | [] => none
  | (k', v) :: rest => if k' = k then some v else jlookup rest k

/-- Dictionary lookup on a flat object of scalars. -/
def plookup (d : List (String × JPrim)) (k : String) : Option JPrim :=
  match d with
  | [] => none
  | (k', v) :: rest => if k' = k then some v else plookup rest k

/-- Python `key in dict` on a nested object value; non-objects contain
no keys. -/
def JVal.hasKey (v : JVal) (k : String) : Bool :=
  match v with
  | .obj fields => (plookup fields k).isSome
  | _ => false

/-- `dict.get(k, default)` specialised to string values: the default is
used when the key is absent (well-typed payloads carry strings here). -/
def jgetStr (d : List (String × JVal)) (k : String) (default : String) : String :=
  match jlookup d k with
  | some (.s v) => v
  | _ => default

/-- `dict.get(k, default)` for arbitrary values. -/
def jgetD (d : List (String × JVal)) (k : String) (default : JVal) : JVal :=
  (jlookup d k).getD default

/-- `dict.get(k, default)` specialised to integer values (well-typed
payloads carry whole numbers here). -/
def jgetInt (d : List (String × JVal)) (k : String) (default : Int) : Int :=
  match jlookup d k with
  | some (.num v) => v.num
  | _ => default

/-! ## Job orchestrator (`job-orchestrator/main.py`) -/

/-- The Celery task view the orchestrator reads through
`celery_app.AsyncResult(task_id)`: the task `state` string, the result
payload returned by `task_result.get()` and the failure `info`. -/
structure TaskView where
  state : String
  result : String
  info : String
  deriving Repr, DecidableEq

/-- The task queue, as seen by the orchestrator: every task id has a
current view.  A fixed `Queue` models a window in which the queue state
does not change between calls. -/
def Queue : Type := String → TaskView

/-- One Redis hash `job:<job_id>` plus the in-memory mutations
`get_job_status` performs on its copy.  Fields that `submit_job` never
writes start out `none`. -/
structure JobRecord where
  job_id : String
  task_id : String
  status : String
  job_name : String := ""
  model_type : String := ""
  dataset_path : String := ""
  num_workers : Int := 1
  epochs : Int := 10
  created_at : Int := 0
  hyperparameters : Option JVal := none
  result : Option String := none
  error : Option String := none
  completed_at : Option Int := none
  failed_at : Option Int := none
  cancelled_at : Option Int := none
  deriving Repr, DecidableEq

/-- Orchestrator state: the Redis job registry (keyed by job id) and
the list of task ids enqueued on the Celery broker. -/
structure OrchState where
  jobs : List (String × JobRecord)
  enqueued : List String
  deriving Repr, DecidableEq

/-- Registry lookup (`redis_client.hgetall(f"job:{job_id}")`). -/
def lookupJob (jobs : List (String × JobRecord)) (job_id : String) :
    Option JobRecord :=
  match jobs with
  | [] => none
  | (k, r) :: rest => if k = job_id then some r else lookupJob rest job_id

/-- Overwrite the stored record for `job_id` (Redis `hset`/`hmset`
on an existing key), leaving other jobs untouched. -/
def storeJob (jobs : List (String × JobRecord)) (job_id : String)
    (r : JobRecord) : List (String × JobRecord) :=
  match jobs with
  | [] => [(job_id, r)]
  | (k, r') :: rest =>
    if k = job_id then (k, r) :: rest else (k, r') :: storeJob rest job_id r

/-- Result of `submit_job`: either an error response (HTTP code and
message) or the 202 acceptance payload. -/
inductive SubmitResult where
  | err (code : Nat) (msg : String)
  | accepted (job_id status job_name model_type : String)
  deriving Repr, DecidableEq

/-- `submit_job` (`job-orchestrator/main.py:50-129`).  The generated
UUID, the broker-assigned task id, the MinIO bucket-creation outcome and
the clock are passed in as the environment.  Validation follows the
source exactly: the three required fields are checked in order (with
Python's falsy test `not job_data` re-checked each round), then the
`hyperparameters` bundle, then its three required keys in order. -/
def submit_job (st : OrchState) (job_data : List (String × JVal))
    (new_job_id new_task_id : String) (bucketsOk : Bool) (now : Int) :
    SubmitResult × OrchState :=
  if job_data.isEmpty || (jlookup job_data "model_type").isNone then
    (.err 400 "Missing required field: model_type", st)
  else if (jlookup job_data "dataset_path").isNone then
    (.err 400 "Missing required field: dataset_path", st)
  else if (jlookup job_data "job_name").isNone then
    (.err 400 "Missing required field: job_name", st)
  else if (jlookup job_data "hyperparameters").isNone then
    (.err 400 "Missing hyperparameters", st)
  else
    let hyperparams := jgetD job_data "hyperparameters" (.obj [])
    if !(hyperparams.hasKey "learning_rate") then
      (.err 400 "Missing hyperparameter: learning_rate", st)
    else if !(hyperparams.hasKey "batch_size") then
      (.err 400 "Missing hyperparameter: batch_size", st)
    else if !(hyperparams.hasKey "optimizer") then
      (.err 400 "Missing hyperparameter: optimizer", st)
    else if !bucketsOk then
      (.err 500 "Failed to create storage buckets", st)
    else
      let job_name := jgetStr job_data "job_name" ""
      let model_type := jgetStr job_data "model_type" ""
      let record : JobRecord :=
        { job_id := new_job_id
          task_id := new_task_id
          status := "QUEUED"
          job_name := job_name
          model_type := model_type
          dataset_path := jgetStr job_data "dataset_path" ""
          num_workers := jgetInt job_data "num_workers" 1
          epochs := jgetInt job_data "epochs" 10
          created_at := now
          hyperparameters := some hyperparams }
      (.accepted new_job_id "QUEUED" job_name model_type,
       { jobs := storeJob st.jobs new_job_id record
         enqueued := st.enqueued ++ [new_task_id] })

/-- Result of `get_job_status`: 404, or the reconciled job view together
with whether the asynchronous auto-save thread was spawned on this call. -/
inductive StatusResult where
  | notFound
  | ok (view : JobRecord) (autoSaveTriggered : Bool)
  deriving Repr, DecidableEq

/-- `get_job_status` (`job-orchestrator/main.py:131-169`).  The function
mutates an in-memory copy of the stored hash: line 142 overwrites
`status` with the queue state *before* the "first time COMPLETED" check
of line 149, the SUCCESS branch attaches the result and `completed_at`,
the FAILURE branch attaches `error` and `failed_at`, PENDING is reported
as QUEUED, and any other queue state is passed through.  Only the
`status` field is written back to Redis (line 167). -/
def get_job_status (st : OrchState) (q : Queue) (job_id : String)
    (now : Int) : StatusResult × OrchState :=
  match lookupJob st.jobs job_id with
  | none => (.notFound, st)
  | some job =>
    let tv := q job.task_id
    let current_status := tv.state
    let job1 := { job with status := current_status }
    let (final, triggered) :=
      if current_status = "SUCCESS" then
        let job2 := { job1 with result := some tv.result,
                                completed_at := some now }
        if job2.status ≠ "COMPLETED" then
          ({ job2 with status := "COMPLETED" }, true)
        else
          (job2, false)
      else if current_status = "FAILURE" then
        ({ job1 with error := some tv.info, failed_at := some now }, false)
      else if current_status = "PENDING" then
        ({ job1 with status := "QUEUED" }, false)
      else
        (job1, false)
    (.ok final triggered,
     { st with jobs := storeJob st.jobs job_id { job with status := final.status } })

/-- Result of `cancel_job`: 404 or the success payload. -/
inductive CancelResult where
  | notFound
  | cancelled (job_id status : String)
  deriving Repr, DecidableEq

/-- `cancel_job` (`job-orchestrator/main.py:203-222`): 404 when the job
is unknown; otherwise the Celery task is revoked (an external
best-effort signal, no orchestrator state) and the stored record
unconditionally gets `status := "CANCELLED"` and a `cancelled_at`
stamp, whatever the previous status was. -/
def cancel_job (st : OrchState) (job_id : String) (now : Int) :
    CancelResult × OrchState :=
  match lookupJob st.jobs job_id with
  | none => (.notFound, st)
  | some job =>
    (.cancelled job_id "CANCELLED",
     { st with
         jobs := storeJob st.jobs job_id
           { job with status := "CANCELLED", cancelled_at := some now } })

/-- The JSON body the orchestrator's `auto_save_model` helper sends to
the storage service (`job-orchestrator/main.py:38`:
`requests.post(url, json={}, timeout=30)`): the empty object. -/
def orchestratorAutoSaveBody : List (String × JVal) := []

/-! ## Storage service (`storage/main.py`, `storage/storage_manager.py`) -/

/-- One character of the substitution pass of `_sanitize_filename`:
the regex `[^\w\-_.]` keeps word characters (modelled as ASCII
alphanumerics plus underscore), hyphen and dot, and replaces everything
else with an underscore. -/
def keepFilenameChar (c : Char) : Bool :=
  c.isAlphanum || c = '_' || c = '-' || c = '.'

/-- Collapse every run of consecutive underscores to a single one
(the `re.sub(r'_+', '_', …)` pass). -/
def squeezeUnderscores : List Char → List Char
  | [] => []
  | '_' :: rest =>
    match squeezeUnderscores rest with
    | '_' :: r => '_' :: r
    | r => '_' :: r
  | c :: rest => c :: squeezeUnderscores rest

/-- `StorageManager._sanitize_filename`
(`storage/storage_manager.py:122-134`): empty input becomes
`"unnamed"`; otherwise the name is stripped of surrounding whitespace,
non-filename characters are replaced by underscores, underscore runs
are collapsed, leading/trailing underscores removed, the result is
truncated to 50 characters, and an empty residue again becomes
`"unnamed"`. -/
def sanitize_filename (name : String) : String :=
  if name = "" then "unnamed"
  else
    let cs := name.trim.toList.map (fun c => if keepFilenameChar c then c else '_')
    let cs := squeezeUnderscores cs
    let cs := ((cs.dropWhile (· = '_')).reverse.dropWhile (· = '_')).reverse
    let cs := cs.take 50
    if cs = [] then "unnamed" else String.mk cs

/-- The serialisable payload `auto_save_model_endpoint` builds as
`model_data` and dumps to bytes (`storage/main.py:539-551`); byte-level
JSON serialisation and the checksum are outside the model. -/
structure ModelData where
  job_id : String
  model_type : Option JVal
  hyperparameters : JVal
  training_completed_at : Int
  auto_saved : Bool
  dataset_path : Option JVal
  epochs : Option JVal
  num_workers : Option JVal
  deriving Repr, DecidableEq

/-- The metrics sub-document of the synthesized model metadata
(`storage/main.py:526-531`). -/
structure MetricsDoc where
  accuracy : JVal
  loss : JVal
  completed_tasks : JVal
  total_tasks : JVal
  deriving Repr, DecidableEq

/-- One document of the MongoDB `models` collection as written by
`StorageManager.save_model` (`storage/storage_manager.py:183-204`).
The ObjectId is modelled as the store's insertion counter. -/
structure ModelDoc where
  mongo_id : Nat
  job_id : String
  name : String
  minio_path : String
  minio_object : String
  algorithm : String
  model_type : String
  hyperparameters : JVal
  metrics : MetricsDoc
  version : String
  dataset_name : String
  created_at : Int
  status : String
  data : ModelData
  deriving Repr, DecidableEq

/-- The storage collaborator's state: the `models` collection plus the
fresh ObjectId counter. -/
structure ModelStore where
  models : List ModelDoc
  next_id : Nat
  deriving Repr, DecidableEq

/-- Metadata handed to `save_model` by the auto-save endpoint
(`storage/main.py:521-536`). -/
structure ModelMeta where
  job_id : String
  name : String
  algorithm : String
  hyperparameters : JVal
  metrics : MetricsDoc
  version : String
  dataset_name : String
  job_name : String
  model_type : String
  deriving Repr, DecidableEq

/-- `StorageManager.save_model` (`storage/storage_manager.py:138-216`):
derives the MinIO object name from the sanitised job name, algorithm
and dataset name plus a timestamp, stores the blob (the MinIO put is
modelled as succeeding), inserts the metadata document into the
`models` collection and returns the new ObjectId with the MinIO path. -/
def save_model (store : ModelStore) (data : ModelData) (meta : ModelMeta)
    (now : Int) : (Nat × String) × ModelStore :=
  let descriptive_name :=
    sanitize_filename meta.job_name ++ "_" ++ sanitize_filename meta.algorithm
      ++ "_" ++ sanitize_filename meta.dataset_name
  let object_name := "models/" ++ descriptive_name ++ "_" ++ toString now ++ ".pkl"
  let minio_path := "s3://models/" ++ object_name
  let doc : ModelDoc :=
    { mongo_id := store.next_id
      job_id := meta.job_id
      name := meta.name
      minio_path := minio_path
      minio_object := object_name
      algorithm := meta.algorithm
      model_type := meta.model_type
      hyperparameters := meta.hyperparameters
      metrics := meta.metrics
      version := meta.version
      dataset_name := meta.dataset_name
      created_at := now
      status := "trained"
      data := data }
  ((store.next_id, minio_path),
   { models := store.models ++ [doc], next_id := store.next_id + 1 })

/-- `StorageManager.list_models` (`storage/storage_manager.py:269-290`):
filter the `models` collection by `job_id`, sort by `created_at`
descending, and truncate to `limit`. -/
def list_models (store : ModelStore) (job_id : String) (limit : Nat) :
    List ModelDoc :=
  ((store.models.filter (fun d => d.job_id == job_id)).mergeSort
    (fun a b => decide (b.created_at ≤ a.created_at))).take limit

/-- Response of the auto-save endpoint: HTTP status code, the model
identifier when one is reported, and the error message otherwise. -/
structure AutoSaveResp where
  code : Nat
  model_id : Option Nat
  error : Option String
  deriving Repr, DecidableEq

/-- `auto_save_model_endpoint` (`storage/main.py:472-566`). Rejects an
empty body (`if not job_data`), a body whose `job_id` differs from the
path, and a status other than `"COMPLETED"`; short-circuits with 200
and the existing model id when `list_models(job_id, limit=1)` is
non-empty; otherwise synthesizes the model name and metadata from the
job record and saves a new model, answering 201 with the fresh id. -/
def auto_save_model_endpoint (store : ModelStore) (job_id : String)
    (job_data : List (String × JVal)) (now : Int) :
    AutoSaveResp × ModelStore :=
  if job_data.isEmpty then
    ({ code := 400, model_id := none, error := some "Job data is required" }, store)
  else if jlookup job_data "job_id" ≠ some (.s job_id) then
    ({ code := 400, model_id := none, error := some "Job ID mismatch" }, store)
  else if jlookup job_data "status" ≠ some (.s "COMPLETED") then
    ({ code := 400, model_id := none,
       error := some "Job must be completed to save model" }, store)
  else
    match list_models store job_id 1 with
    | m :: _ =>
      ({ code := 200, model_id := some m.mongo_id, error := none }, store)
    | [] =>
      let dataset_path := jgetStr job_data "dataset_path" "unknown_dataset"
      let dataset_name := (dataset_path.splitOn "/").getLastD dataset_path
      let dataset_name := ((dataset_name.splitOn ".").headD dataset_name)
      let job_name := (jgetStr job_data "job_name" job_id).replace " " "_"
      let model_type := jgetStr job_data "model_type" "UnknownModel"
      let descriptive_model_name := job_name ++ "_" ++ model_type ++ "_" ++ dataset_name
      let metrics : MetricsDoc :=
        { accuracy := jgetD job_data "current_accuracy" (.num 0)
          loss := jgetD job_data "current_loss" (.num 0)
          completed_tasks := jgetD job_data "completed_tasks" (.num 0)
          total_tasks := jgetD job_data "total_tasks" (.num 0) }
      let meta : ModelMeta :=
        { job_id := job_id
          name := descriptive_model_name
          algorithm := jgetStr job_data "model_type" "unknown"
          hyperparameters := jgetD job_data "hyperparameters" (.obj [])
          metrics := metrics
          version := "1.0"
          dataset_name := dataset_name
          job_name := jgetStr job_data "job_name" job_id
          model_type := "trained" }
      let data : ModelData :=
        { job_id := job_id
          model_type := jlookup job_data "model_type"
          hyperparameters := jgetD job_data "hyperparameters" (.obj [])
          training_completed_at := now
          auto_saved := true
          dataset_path := jlookup job_data "dataset_path"
          epochs := jlookup job_data "epochs"
          num_workers := jlookup job_data "num_workers" }
      let ((mongo_id, _), store') := save_model store data meta now
      ({ code := 201, model_id := some mongo_id, error := none }, store')

/-! ## Monitoring / fleet scaling (`monitoring/main.py`) -/

/-- The process-wide `scaling_config` dictionary
(`monitoring/main.py:40-48`), with worker counts as integers and the
utilization thresholds as rationals. -/
structure ScalingConfig where
  current_workers : Int
  desired_workers : Int
  min_workers : Int
  max_workers : Int
  auto_scale_enabled : Bool
  scale_down_threshold : Rat
  scale_up_threshold : Rat
  deriving Repr, DecidableEq

/-- The initial `scaling_config` literal of `monitoring/main.py:40-48`. -/
def defaultScalingConfig : ScalingConfig :=
  { current_workers := 3
    desired_workers := 3
    min_workers := 1
    max_workers := 10
    auto_scale_enabled := true
    scale_down_threshold := 3/10
    scale_up_threshold := 4/5 }

/-- The invariant the specification states for `ScalingConfig`:
`min_workers ≤ current_workers/desired_workers ≤ max_workers`. -/
def ScalingConfig.invariantHolds (c : ScalingConfig) : Prop :=
  c.min_workers ≤ c.current_workers ∧ c.current_workers ≤ c.max_workers ∧
  c.min_workers ≤ c.desired_workers ∧ c.desired_workers ≤ c.max_workers

instance (c : ScalingConfig) : Decidable c.invariantHolds := by
  unfold ScalingConfig.invariantHolds; infer_instance

/-- A well-typed value for one `scaling_config` key, as carried by a
configuration-update request. -/
inductive CVal where
  | int (i : Int)
  | rat (q : Rat)
  | bool (v : Bool)
  deriving Repr, DecidableEq

/-- Apply one `scaling_config[key] = value` assignment of
`update_scaling_config` (`monitoring/main.py:251-253`): keys not
already in the dictionary are ignored; a well-typed value replaces the
field.  (Python would also store ill-typed values; those payloads are
outside the model.) -/
def setConfigKey (c : ScalingConfig) (k : String) (v : CVal) : ScalingConfig :=
  match k, v with
  | "current_workers", .int i => { c with current_workers := i }
  | "desired_workers", .int i => { c with desired_workers := i }
  | "min_workers", .int i => { c with min_workers := i }
  | "max_workers", .int i => { c with max_workers := i }
  | "auto_scale_enabled", .bool b => { c with auto_scale_enabled := b }
  | "scale_down_threshold", .rat q => { c with scale_down_threshold := q }
  | "scale_up_threshold", .rat q => { c with scale_up_threshold := q }
  | _, _ => c

/-- `update_scaling_config` (`monitoring/main.py:245-255`): every
key/value pair of the request body is applied in order, with no
validation of any kind. -/
def update_scaling_config (c : ScalingConfig) (data : List (String × CVal)) :
    ScalingConfig :=
  data.foldl (fun acc kv => setConfigKey acc kv.1 kv.2) c

/-- Response of `scale_workers`: the HTTP status code (400 for an
out-of-bounds target, 500 for a failed scale command, 200 on success). -/
structure ScaleResp where
  code : Nat
  deriving Repr, DecidableEq

/-- `scale_workers` (`monitoring/main.py:257-316`).  `worker_count`
defaults to the current `desired_workers` when absent; targets outside
`[min_workers, max_workers]` are rejected with 400 and no state change.
Otherwise line 272 sets `desired_workers := target` *before* the
external `docker compose` scale command runs (modelled by `cmdOk`); a
failing command answers 500 with `current_workers` untouched, a
successful one sets `current_workers := target` and answers 200. -/
def scale_workers (c : ScalingConfig) (worker_count : Option Int)
    (cmdOk : Bool) : ScaleResp × ScalingConfig :=
  let target := worker_count.getD c.desired_workers
  if target < c.min_workers then ({ code := 400 }, c)
  else if target > c.max_workers then ({ code := 400 }, c)
  else
    let c1 := { c with desired_workers := target }
    if cmdOk then ({ code := 200 }, { c1 with current_workers := target })
    else ({ code := 500 }, c1)

/-- One row of the in-memory `workers_data` table
(`monitoring/main.py:149-159`): a status string plus the optional
heartbeat payload fields read back by the activity endpoint. -/
structure WorkerData where
  status : String
  registered_at : Int
  updated_at : Option Int := none
  current_task_id : Option String := none
  current_job_id : Option String := none
  tasks_completed : Option Int := none
  cpu_usage : Option Rat := none
  memory_usage : Option Rat := none
  deriving Repr, DecidableEq

/-- The decision of one autoscale-loop iteration, separated from its
effect: the loop skips entirely when no workers are registered,
otherwise scales down by one, up by one, or does nothing. -/
inductive ScaleDecision where
  | skip
  | noAction
  | scaleDown (new_count : Int)
  | scaleUp (new_count : Int)
  deriving Repr, DecidableEq

/-- The decision logic of one `monitor_and_shrink` iteration
(`monitoring/main.py:356-389`): guarded by `total_workers > 0`;
`utilization = busy_workers / total_workers`; scale down to
`max(current_workers - 1, min_workers)` when
`utilization < scale_down_threshold` and
`current_workers > min_workers`; otherwise scale up to
`min(current_workers + 1, max_workers)` when
`utilization > scale_up_threshold` and
`current_workers < max_workers`; otherwise no action.  Both
comparisons are strict. -/
def autoscale_decision (c : ScalingConfig) (busy total : Nat) :
    ScaleDecision :=
  if total = 0 then .skip
  else
    let utilization : Rat := (busy : Rat) / (total : Rat)
    if utilization < c.scale_down_threshold ∧
        c.current_workers > c.min_workers then
      .scaleDown (max (c.current_workers - 1) c.min_workers)
    else if utilization > c.scale_up_threshold ∧
        c.current_workers < c.max_workers then
      .scaleUp (min (c.current_workers + 1) c.max_workers)
    else .noAction

/-- One iteration of the `monitor_and_shrink` loop body
(`monitoring/main.py:356-389`): `busy`/`total` are computed from the
worker table, the decision is taken as in `autoscale_decision`, and on
a scale decision both `current_workers` and `desired_workers` are set
to the new count (the scale command's outcome is not inspected by the
source). -/
def monitor_step (c : ScalingConfig) (workers : List (String × WorkerData)) :
    ScalingConfig :=
  let total := workers.length
  let busy := (workers.filter (fun w => w.2.status == "BUSY")).length
  match autoscale_decision c busy total with
  | .scaleDown n => { c with current_workers := n, desired_workers := n }
  | .scaleUp n => { c with current_workers := n, desired_workers := n }
  | _ => c

/-- One entry of the `workers` list built by `get_worker_activity`. -/
structure ActivityWorker where
  worker_id : String
  status : String
  current_task_id : String
  current_job_id : String
  tasks_completed : Int
  last_activity_time : Int
  cpu_usage : Rat
  memory_usage : Rat
  uptime : Int
  is_active : Bool
  deriving Repr, DecidableEq

/-- Response of `get_worker_activity`. -/
structure ActivityResp where
  workers : List ActivityWorker
  total_workers : Nat
  active_workers : Nat
  busy_workers : Nat
  timestamp : Int
  deriving Repr, DecidableEq

/-- The mock worker with index `i` appended when the fleet view is
empty (`monitoring/main.py:217-230`). -/
def mockWorker (now : Int) (i : Int) : ActivityWorker :=
  { worker_id := "tensorfleet-worker-" ++ toString i
    status := if i > 1 then "IDLE" else "BUSY"
    current_task_id :=
      if i = 1 then "task_" ++ toString now ++ "_" ++ toString i else ""
    current_job_id := if i = 1 then "demo_job" else ""
    tasks_completed := i * 5
    last_activity_time := now - i * 2
    cpu_usage := 20 + i * 15
    memory_usage := 30 + i * 10
    uptime := 3600 + i * 300
    is_active := true }

/-- `get_worker_activity` (`monitoring/main.py:189-238`): each
registered worker is reported with liveness
`now - last_activity < 30` (an inactive worker is forced to OFFLINE);
when no workers are registered, three synthetic demonstration workers
are appended instead; the summary counts are computed from the final
list. -/
def get_worker_activity (workers_data : List (String × WorkerData))
    (now : Int) : ActivityResp :=
  let fromTable := workers_data.map (fun kv =>
    let w := kv.2
    let last_activity := w.updated_at.getD w.registered_at
    let is_active := now - last_activity < 30
    { worker_id := kv.1
      status := if is_active then w.status else "OFFLINE"
      current_task_id := w.current_task_id.getD ""
      current_job_id := w.current_job_id.getD ""
      tasks_completed := w.tasks_completed.getD 0
      last_activity_time := last_activity
      cpu_usage := w.cpu_usage.getD 0
      memory_usage := w.memory_usage.getD 0
      uptime := now - w.registered_at
      is_active := is_active : ActivityWorker })
  let workers_list :=
    if fromTable.isEmpty then
      [mockWorker now 1, mockWorker now 2, mockWorker now 3]
    else fromTable
  { workers := workers_list
    total_workers := workers_list.length
    active_workers := (workers_list.filter (·.is_active)).length
    busy_workers := (workers_list.filter (·.status == "BUSY")).length
    timestamp := now }

/-! ## Derived views used by the theorems -/

/-- Whether a `get_job_status` call spawned the auto-save thread. -/
def StatusResult.triggered : StatusResult → Bool
  | .ok _ t => t
  | .notFound => false

/-- The status field of the returned job view, when the job exists. -/
def StatusResult.viewStatus : StatusResult → Option String
  | .ok v _ => some v.status
  | .notFound => none

/-- The reconciled in-memory job view and trigger flag `get_job_status`
produces for a stored record `job` under task view `tv`: the closed
form of the mutation chain of `job-orchestrator/main.py:141-165`
(proved equal to `get_job_status` in `get_job_status_eq`).  Because
line 142 overwrites the status before the line-149 guard, the SUCCESS
branch always reports `COMPLETED` and always triggers. -/
def reconcileView (job : JobRecord) (tv : TaskView) (now : Int) :
    JobRecord × Bool :=
  if tv.state = "SUCCESS" then
    ({ job with status := "COMPLETED", result := some tv.result,
                completed_at := some now }, true)
  else if tv.state = "FAILURE" then
    ({ job with status := "FAILURE", error := some tv.info,
                failed_at := some now }, false)
  else if tv.state = "PENDING" then
    ({ job with status := "QUEUED" }, false)
  else
    ({ job with status := tv.state }, false)

/-- Spec-side reading of "fails with `ValidationError` listing the
first missing field": scan the required top-level fields in their
documented order, then the hyperparameter bundle, then the required
hyperparameters in order, and emit the first missing item's message. -/
def firstMissingMessage (job_data : List (String × JVal)) : Option String :=
  match ["model_type", "dataset_path", "job_name"].find?
      (fun f => job_data.isEmpty || (jlookup job_data f).isNone) with
  | some f => some ("Missing required field: " ++ f)
  | none =>
    match jlookup job_data "hyperparameters" with
    | none => some "Missing hyperparameters"
    | some hp =>
      match ["learning_rate", "batch_size", "optimizer"].find?
          (fun p => !(hp.hasKey p)) with
      | some p => some ("Missing hyperparameter: " ++ p)
      | none => none

/-! ## Supporting lemmas -/

/-- Storing a record for a key makes it the one `lookupJob` finds. -/
theorem lookupJob_storeJob (jobs : List (String × JobRecord))
    (job_id : String) (r : JobRecord) :
    lookupJob (storeJob jobs job_id r) job_id = some r := by
  induction jobs with
  | nil => simp [storeJob, lookupJob]
  | cons kv rest ih =>
    by_cases h : kv.1 = job_id
    · simp [storeJob, lookupJob, h]
    · simpa [storeJob, lookupJob, h] using ih

/-- A dictionary with a bound key is non-empty. -/
theorem jlookup_isEmpty_false {d : List (String × JVal)} {k : String}
    {v : JVal} (h : jlookup d k = some v) : d.isEmpty = false := by
  cases d with
  | nil => simp [jlookup] at h
  | cons _ _ => rfl

/-- `get_job_status` answers 404 exactly for unknown jobs and leaves
the state untouched. -/
theorem get_job_status_of_not_found {st : OrchState} {q : Queue}
    {job_id : String} {now : Int}
    (h : lookupJob st.jobs job_id = none) :
    get_job_status st q job_id now = (.notFound, st) := by
  simp [get_job_status, h]

/-- Closed form of `get_job_status` on an existing job: the returned
view and trigger flag are `reconcileView` of the stored record and the
task view, and only the status field is written back. -/
theorem get_job_status_eq {st : OrchState} {q : Queue} {job_id : String}
    {now : Int} {job : JobRecord}
    (h : lookupJob st.jobs job_id = some job) :
    get_job_status st q job_id now =
      (.ok (reconcileView job (q job.task_id) now).1
           (reconcileView job (q job.task_id) now).2,
       OrchState.mk
         (storeJob st.jobs job_id
           { job with status := (reconcileView job (q job.task_id) now).1.status })
         st.enqueued) := by
  by_cases hS : (q job.task_id).state = "SUCCESS"
  · simp [get_job_status, h, reconcileView, hS]
  · by_cases hF : (q job.task_id).state = "FAILURE"
    · simp [get_job_status, h, reconcileView, hS, hF]
    · by_cases hP : (q job.task_id).state = "PENDING"
      · simp [get_job_status, h, reconcileView, hS, hF, hP]
      · simp [get_job_status, h, reconcileView, hS, hF, hP]

/-! ## Claim theorems -/

/-- C1: refuted on the code — the "first time COMPLETED" guard of
`get_job_status` (`job-orchestrator/main.py:149`) reads the in-memory
status that line 142 just overwrote with the queue state, so it is
always true: the asynchronous auto-save workflow is spawned on *every*
poll that observes queue state "success", not only on the transition
into COMPLETED.  Two consecutive `getStatus` calls on the same job both
fire the trigger, even though the second one starts from a stored
status of "COMPLETED". -/
theorem C1_auto_save_fires_on_every_success_poll :
    let q : Queue := fun _ => TaskView.mk "SUCCESS" "res" ""
    let st0 : OrchState :=
      ⟨[("j1", { job_id := "j1", task_id := "t1", status := "QUEUED" })], ["t1"]⟩
    let st1 := (get_job_status st0 q "j1" 5).2
    (get_job_status st0 q "j1" 5).1.triggered = true ∧
    (lookupJob st1.jobs "j1").map JobRecord.status = some "COMPLETED" ∧
    (get_job_status st1 q "j1" 6).1.triggered = true := by
  exact ⟨rfl, rfl, rfl⟩

/-- C3: refuted on the code — the orchestrator's `auto_save_model`
helper (`job-orchestrator/main.py:38`) posts the empty JSON object to
the storage auto-save endpoint, and the endpoint rejects an empty body
with 400 "Job data is required" before any check or save, leaving the
model store untouched.  The auto-save workflow as wired can therefore
never store a model. -/
theorem C3_orchestrator_auto_save_always_rejected
    (store : ModelStore) (job_id : String) (now : Int) :
    auto_save_model_endpoint store job_id orchestratorAutoSaveBody now =
      ({ code := 400, model_id := none, error := some "Job data is required" },
       store) := rfl

/-- C5 counterexample: from the initial scaling configuration, an
in-bounds request for 5 workers whose external scale command fails
returns 500 — but `desired_workers` has already been moved from 3 to 5
(`monitoring/main.py:272` mutates before running the command), so the
state is *not* left unchanged as the claim requires. -/
theorem C5_counterexample_partial_update_on_failure :
    (scale_workers defaultScalingConfig (some 5) false).1.code = 500 ∧
    (scale_workers defaultScalingConfig (some 5) false).2.desired_workers = 5 ∧
    defaultScalingConfig.desired_workers = 3 := by
  exact ⟨rfl, rfl, rfl⟩

/-- C5 (amended): for every in-bounds target, `scale_workers` first
sets `desired_workers := target`; if the external command succeeds it
returns 200 with `current_workers = desired_workers = target`, and if
the command fails it returns 500 with `current_workers` unchanged but
`desired_workers` already updated to the target. -/
theorem C5_scale_workers_behaviour (c : ScalingConfig) (target : Int)
    (cmdOk : Bool) (hmin : c.min_workers ≤ target)
    (hmax : target ≤ c.max_workers) :
    (cmdOk = true →
      (scale_workers c (some target) cmdOk).1.code = 200 ∧
      (scale_workers c (some target) cmdOk).2.current_workers = target ∧
      (scale_workers c (some target) cmdOk).2.desired_workers = target) ∧
    (cmdOk = false →
      (scale_workers c (some target) cmdOk).1.code = 500 ∧
      (scale_workers c (some target) cmdOk).2.current_workers = c.current_workers ∧
      (scale_workers c (some target) cmdOk).2.desired_workers = target) := by
  unfold scale_workers
  have h1 : ¬ (target < c.min_workers) := not_lt.mpr hmin
  have h2 : ¬ (target > c.max_workers) := not_lt.mpr hmax
  cases cmdOk <;> simp [h1, h2]

/-- C5 witness: the amended behaviour at the initial configuration,
target 5, failing command. -/
theorem C5_scale_workers_behaviour_witness :
    defaultScalingConfig.min_workers ≤ 5 ∧ (5 : Int) ≤ defaultScalingConfig.max_workers ∧
    ((scale_workers defaultScalingConfig (some 5) false).1.code = 500 ∧
     (scale_workers defaultScalingConfig (some 5) false).2.current_workers =
       defaultScalingConfig.current_workers ∧
     (scale_workers defaultScalingConfig (some 5) false).2.desired_workers = 5) := by
  exact ⟨by decide, by decide,
    (C5_scale_workers_behaviour defaultScalingConfig 5 false (by decide)
      (by decide)).2 rfl⟩

/-- C7 counterexample: the configuration-update endpoint applies
request values with no validation (`monitoring/main.py:251-253`), so a
single update raising `min_workers` to 5 takes the initial
configuration (which satisfies the invariant) to a state violating
`min_workers ≤ current_workers`. -/
theorem C7_counterexample_config_update_breaks_invariant :
    defaultScalingConfig.invariantHolds ∧
    ¬ (update_scaling_config defaultScalingConfig
        [("min_workers", CVal.int 5)]).invariantHolds := by
  exact ⟨by decide, by decide⟩

/-- Inversion for a scale-down decision: the new count and the two
guards of `monitoring/main.py:364`. -/
theorem autoscale_decision_scaleDown_inv {c : ScalingConfig}
    {busy total : Nat} {n : Int}
    (hd : autoscale_decision c busy total = .scaleDown n) :
    n = max (c.current_workers - 1) c.min_workers ∧
    c.min_workers < c.current_workers ∧
    (busy : Rat) / (total : Rat) < c.scale_down_threshold := by
  unfold autoscale_decision at hd
  simp only [] at hd
  split_ifs at hd with hz hdown hup
  injection hd with hn
  exact ⟨hn.symm, hdown.2, hdown.1⟩

/-- Inversion for a scale-up decision: the new count and the two
guards of `monitoring/main.py:378`. -/
theorem autoscale_decision_scaleUp_inv {c : ScalingConfig}
    {busy total : Nat} {n : Int}
    (hd : autoscale_decision c busy total = .scaleUp n) :
    n = min (c.current_workers + 1) c.max_workers ∧
    c.current_workers < c.max_workers ∧
    c.scale_up_threshold < (busy : Rat) / (total : Rat) := by
  unfold autoscale_decision at hd
  simp only [] at hd
  split_ifs at hd with hz hdown hup
  injection hd with hn
  exact ⟨hn.symm, hup.2, hup.1⟩

/-- C7 (amended): explicit scale requests and the autoscale loop do
preserve the `ScalingConfig` invariant from any state satisfying it,
but `update_scaling_config` performs no validation and can break it
(see the counterexample). -/
theorem C7_scale_and_autoscale_preserve_invariant (c : ScalingConfig)
    (wc : Option Int) (cmdOk : Bool)
    (workers : List (String × WorkerData))
    (h : c.invariantHolds) :
    (scale_workers c wc cmdOk).2.invariantHolds ∧
    (monitor_step c workers).invariantHolds := by
  obtain ⟨h1, h2, h3, h4⟩ := h
  constructor
  · unfold scale_workers
    by_cases hlt : wc.getD c.desired_workers < c.min_workers
    · simpa [hlt] using ⟨h1, h2, h3, h4⟩
    · by_cases hgt : wc.getD c.desired_workers > c.max_workers
      · simpa [hlt, hgt] using ⟨h1, h2, h3, h4⟩
      · cases cmdOk <;>
          simp [hlt, hgt, ScalingConfig.invariantHolds] <;> omega
  · unfold monitor_step
    rcases hd : autoscale_decision c
        ((workers.filter (fun w => w.2.status == "BUSY")).length)
        workers.length with _ | _ | n | n
    · simpa [hd] using ⟨h1, h2, h3, h4⟩
    · simpa [hd] using ⟨h1, h2, h3, h4⟩
    · obtain ⟨hn, hcur, -⟩ := autoscale_decision_scaleDown_inv hd
      simp [ScalingConfig.invariantHolds, hd, hn]
      omega
    · obtain ⟨hn, hcur, -⟩ := autoscale_decision_scaleUp_inv hd
      simp [ScalingConfig.invariantHolds, hd, hn]
      omega

/-- C7 witness: preservation at the initial configuration, a scale
request to 5 and an empty worker table. -/
theorem C7_scale_and_autoscale_preserve_invariant_witness :
    defaultScalingConfig.invariantHolds ∧
    ((scale_workers defaultScalingConfig (some 5) true).2.invariantHolds ∧
     (monitor_step defaultScalingConfig []).invariantHolds) := by
  exact ⟨by decide,
    C7_scale_and_autoscale_preserve_invariant defaultScalingConfig (some 5)
      true [] (by decide)⟩

/-- C9: the autoscale decision is a deterministic function of busy and
total workers: the decision is skipped when `total_workers = 0`; at the
initial thresholds, utilization 8/10 = 0.8 does *not* trigger scale-up
(strict `>`), while 9/10 = 0.9 does; and a scale-down decision can only
arise from `utilization < scale_down_threshold` together with
`current_workers > min_workers`. -/
theorem C9_autoscale_decision_properties :
    (∀ (c : ScalingConfig) (busy : Nat),
      autoscale_decision c busy 0 = .skip) ∧
    autoscale_decision defaultScalingConfig 8 10 = .noAction ∧
    autoscale_decision defaultScalingConfig 9 10 = .scaleUp 4 ∧
    (∀ (c : ScalingConfig) (busy total : Nat) (n : Int),
      autoscale_decision c busy total = .scaleDown n →
        (busy : Rat) / (total : Rat) < c.scale_down_threshold ∧
        c.min_workers < c.current_workers) := by
  refine ⟨fun c busy => by simp [autoscale_decision],
    by norm_num [autoscale_decision, defaultScalingConfig],
    by norm_num [autoscale_decision, defaultScalingConfig, min_def],
    fun c busy total n hd => ?_⟩
  obtain ⟨-, hcur, hutil⟩ := autoscale_decision_scaleDown_inv hd
  exact ⟨hutil, hcur⟩

/-- C9 witness: the scale-down implication applied at busy 1 of 10
workers under the initial configuration. -/
theorem C9_autoscale_decision_properties_witness :
    autoscale_decision defaultScalingConfig 1 10 = .scaleDown 2 ∧
    (((1 : Nat) : Rat) / ((10 : Nat) : Rat) <
        defaultScalingConfig.scale_down_threshold ∧
      defaultScalingConfig.min_workers < defaultScalingConfig.current_workers) := by
  have hdec : autoscale_decision defaultScalingConfig 1 10 = .scaleDown 2 := by
    norm_num [autoscale_decision, defaultScalingConfig, max_def]
  exact ⟨hdec,
    C9_autoscale_decision_properties.2.2.2 defaultScalingConfig 1 10 2 hdec⟩

/-- C10: with an empty worker table, the worker-activity endpoint does
not report an empty fleet: it returns the three synthetic demonstration
workers `tensorfleet-worker-1..3`, all marked active, exactly one of
them BUSY, and `total_workers = 3`. -/
theorem C10_mock_worker_fleet_when_empty (now : Int) :
    (get_worker_activity [] now).workers.map ActivityWorker.worker_id =
      ["tensorfleet-worker-1", "tensorfleet-worker-2", "tensorfleet-worker-3"] ∧
    (get_worker_activity [] now).workers.all ActivityWorker.is_active = true ∧
    ((get_worker_activity [] now).workers.filter
        (fun w => w.status == "BUSY")).length = 1 ∧
    (get_worker_activity [] now).total_workers = 3 := by
  exact ⟨rfl, rfl, rfl, rfl⟩

/-- The status of the reconciled view depends only on the task view,
not on the stored record. -/
theorem reconcileView_status (job : JobRecord) (tv : TaskView) (now : Int) :
    (reconcileView job tv now).1.status =
      (if tv.state = "SUCCESS" then "COMPLETED"
       else if tv.state = "FAILURE" then "FAILURE"
       else if tv.state = "PENDING" then "QUEUED"
       else tv.state) := by
  unfold reconcileView
  split_ifs <;> rfl

/-- C4 counterexample: a job is cancelled (stored status "CANCELLED"),
but its Celery task had already finished with queue state "SUCCESS";
the next `getStatus` call derives the status from the queue alone and
both returns and writes back "COMPLETED" — a different terminal state,
so CANCELLED is not absorbing. -/
theorem C4_counterexample_cancelled_overwritten :
    let q : Queue := fun _ => TaskView.mk "SUCCESS" "res" ""
    let st0 : OrchState :=
      ⟨[("j1", { job_id := "j1", task_id := "t1", status := "QUEUED" })], ["t1"]⟩
    let st1 := (cancel_job st0 "j1" 3).2
    (lookupJob st1.jobs "j1").map JobRecord.status = some "CANCELLED" ∧
    (get_job_status st1 q "j1" 4).1.viewStatus = some "COMPLETED" ∧
    (lookupJob (get_job_status st1 q "j1" 4).2.jobs "j1").map JobRecord.status =
      some "COMPLETED" := by
  exact ⟨rfl, rfl, rfl⟩

/-- C4 (amended): `get_job_status` derives the reported and written-back
status solely from the task's queue state, so while the queue state is
unchanged, repeated `getStatus` calls agree (COMPLETED and FAILURE
observations are stable); and `cancel` after any state — terminal ones
included — still succeeds, writes CANCELLED, and never yields RUNNING.
CANCELLED itself is *not* absorbing (see the counterexample). -/
theorem C4_status_stability_and_cancel (st : OrchState) (q : Queue)
    (job_id : String) (now1 now2 : Int) (job : JobRecord)
    (h : lookupJob st.jobs job_id = some job) :
    (get_job_status (get_job_status st q job_id now1).2 q job_id now2).1.viewStatus =
      (get_job_status st q job_id now1).1.viewStatus ∧
    (cancel_job st job_id now1).1 = .cancelled job_id "CANCELLED" ∧
    (lookupJob (cancel_job st job_id now1).2.jobs job_id).map JobRecord.status =
      some "CANCELLED" ∧
    "CANCELLED" ≠ "RUNNING" := by
  refine ⟨?_, ?_, ?_, by decide⟩
  · have h2 : lookupJob (get_job_status st q job_id now1).2.jobs job_id =
        some { job with status := (reconcileView job (q job.task_id) now1).1.status } := by
      rw [get_job_status_eq h]
      exact lookupJob_storeJob st.jobs job_id _
    rw [get_job_status_eq h2, get_job_status_eq h]
    simp [StatusResult.viewStatus, reconcileView_status]
  · simp [cancel_job, h]
  · simp [cancel_job, h, lookupJob_storeJob]

/-- C4 witness: the amended statement at a one-job registry with the
task still pending. -/
theorem C4_status_stability_and_cancel_witness :
    let q : Queue := fun _ => TaskView.mk "PENDING" "" ""
    let st0 : OrchState :=
      ⟨[("j1", { job_id := "j1", task_id := "t1", status := "QUEUED" })], ["t1"]⟩
    (get_job_status (get_job_status st0 q "j1" 1).2 q "j1" 2).1.viewStatus =
      (get_job_status st0 q "j1" 1).1.viewStatus ∧
    (cancel_job st0 "j1" 1).1 = .cancelled "j1" "CANCELLED" ∧
    (lookupJob (cancel_job st0 "j1" 1).2.jobs "j1").map JobRecord.status =
      some "CANCELLED" ∧
    "CANCELLED" ≠ "RUNNING" := by
  exact C4_status_stability_and_cancel _ _ "j1" 1 2
    { job_id := "j1", task_id := "t1", status := "QUEUED" } rfl

/-- C8 counterexample: for a job whose task is in queue state
"FAILURE", `get_job_status` reports and writes back the Celery state
string "FAILURE" verbatim — not the spec's terminal status "FAILED". -/
theorem C8_counterexample_failure_not_failed :
    let q : Queue := fun _ => TaskView.mk "FAILURE" "" "boom"
    let st0 : OrchState :=
      ⟨[("j1", { job_id := "j1", task_id := "t1", status := "QUEUED" })], ["t1"]⟩
    (get_job_status st0 q "j1" 7).1.viewStatus = some "FAILURE" ∧
    some "FAILURE" ≠ some "FAILED" ∧
    (lookupJob (get_job_status st0 q "j1" 7).2.jobs "j1").map JobRecord.status =
      some "FAILURE" := by
  exact ⟨rfl, by decide, rfl⟩

/-- C8 (amended): on queue state "failure" `getStatus` attaches the
error detail and stamps `failed_at` on the returned view and does not
trigger auto-save, but the status returned and written back is the
queue state "FAILURE" verbatim, not "FAILED". -/
theorem C8_failure_attaches_error (st : OrchState) (q : Queue)
    (job_id : String) (now : Int) (job : JobRecord)
    (h : lookupJob st.jobs job_id = some job)
    (hf : (q job.task_id).state = "FAILURE") :
    (get_job_status st q job_id now).1 =
      StatusResult.ok
        ({ job with
             status := "FAILURE"
             error := some (q job.task_id).info
             failed_at := some now })
        false ∧
    (lookupJob (get_job_status st q job_id now).2.jobs job_id).map
        JobRecord.status = some "FAILURE" := by
  rw [get_job_status_eq h]
  refine ⟨?_, ?_⟩
  · simp [reconcileView, hf]
  · simp [reconcileView, hf, lookupJob_storeJob]

/-- C8 witness: the amended statement at a concrete failed task. -/
theorem C8_failure_attaches_error_witness :
    let q : Queue := fun _ => TaskView.mk "FAILURE" "" "boom"
    let st0 : OrchState :=
      ⟨[("j1", { job_id := "j1", task_id := "t1", status := "QUEUED" })], ["t1"]⟩
    (get_job_status st0 q "j1" 7).1 =
      StatusResult.ok
        ({ job_id := "j1", task_id := "t1", status := "FAILURE",
           error := some "boom", failed_at := some 7 }) false ∧
    (lookupJob (get_job_status st0 q "j1" 7).2.jobs "j1").map
        JobRecord.status = some "FAILURE" := by
  exact C8_failure_attaches_error _ _ "j1" 7
    { job_id := "j1", task_id := "t1", status := "QUEUED" } rfl rfl

/-- An empty limited model listing means no stored model matches the
job at all. -/
theorem filter_eq_nil_of_list_models_nil {store : ModelStore} {jid : String}
    (h : list_models store jid 1 = []) :
    store.models.filter (fun d => d.job_id == jid) = [] := by
  unfold list_models at h
  rw [List.take_eq_nil_iff] at h
  rcases h with h | h
  · simp at h
  · have hl := congrArg List.length h
    simp only [List.length_mergeSort, List.length_nil] at hl
    exact List.length_eq_zero.mp hl

/-- The create path of the auto-save endpoint: with a matching job id,
status COMPLETED and no existing model, the endpoint answers 201 with
the fresh ObjectId and appends exactly one document for the job. -/
theorem auto_save_creates (now : Int) {store : ModelStore} {jid : String}
    {jd : List (String × JVal)}
    (hid : jlookup jd "job_id" = some (.s jid))
    (hst : jlookup jd "status" = some (.s "COMPLETED"))
    (hex : list_models store jid 1 = []) :
    ∃ doc : ModelDoc, doc.mongo_id = store.next_id ∧ doc.job_id = jid ∧
      auto_save_model_endpoint store jid jd now =
        ({ code := 201, model_id := some store.next_id, error := none },
         { models := store.models ++ [doc], next_id := store.next_id + 1 }) := by
  have hne : jd.isEmpty = false := jlookup_isEmpty_false hid
  unfold auto_save_model_endpoint
  rw [hex]
  simp only [hne, Bool.false_eq_true, if_false, hid, hst, ne_eq,
    not_true_eq_false, save_model]
  exact ⟨_, rfl, rfl, rfl⟩

/-- The short-circuit path of the auto-save endpoint: with a matching
job id, status COMPLETED and an existing model, the endpoint answers
200 with the existing model's id and leaves the store unchanged. -/
theorem auto_save_short_circuit (now : Int) {store : ModelStore}
    {jid : String} {jd : List (String × JVal)} {d : ModelDoc}
    {rest : List ModelDoc}
    (hid : jlookup jd "job_id" = some (.s jid))
    (hst : jlookup jd "status" = some (.s "COMPLETED"))
    (hl : list_models store jid 1 = d :: rest) :
    auto_save_model_endpoint store jid jd now =
      ({ code := 200, model_id := some d.mongo_id, error := none }, store) := by
  have hne : jd.isEmpty = false := jlookup_isEmpty_false hid
  unfold auto_save_model_endpoint
  rw [hl]
  simp only [hne, Bool.false_eq_true, if_false, hid, hst, ne_eq,
    not_true_eq_false]

/-- C2: the storage auto-save endpoint is idempotent — starting from a
store without a model for the completed job, the first call stores one
model and answers 201 with the fresh identifier, and a second call is a
no-op that answers 200 with the same identifier, the store holding
exactly one model for the job throughout. -/
theorem C2_auto_save_idempotent (store : ModelStore) (jid : String)
    (jd : List (String × JVal)) (now1 now2 : Int)
    (hid : jlookup jd "job_id" = some (.s jid))
    (hst : jlookup jd "status" = some (.s "COMPLETED"))
    (hex : list_models store jid 1 = []) :
    (auto_save_model_endpoint store jid jd now1).1.code = 201 ∧
    (auto_save_model_endpoint store jid jd now1).1.model_id = some store.next_id ∧
    (auto_save_model_endpoint (auto_save_model_endpoint store jid jd now1).2
        jid jd now2).1.code = 200 ∧
    (auto_save_model_endpoint (auto_save_model_endpoint store jid jd now1).2
        jid jd now2).1.model_id = some store.next_id ∧
    (auto_save_model_endpoint (auto_save_model_endpoint store jid jd now1).2
        jid jd now2).2 = (auto_save_model_endpoint store jid jd now1).2 ∧
    ((auto_save_model_endpoint store jid jd now1).2.models.filter
        (fun d => d.job_id == jid)).length = 1 := by
  obtain ⟨doc, hdid, hdjid, heq⟩ := auto_save_creates now1 hid hst hex
  have hfil : store.models.filter (fun d => d.job_id == jid) = [] :=
    filter_eq_nil_of_list_models_nil hex
  have hl2 : list_models
      { models := store.models ++ [doc], next_id := store.next_id + 1 }
      jid 1 = [doc] := by
    unfold list_models
    rw [List.filter_append, hfil]
    simp [hdjid]
  have h2 := auto_save_short_circuit now2 hid hst hl2
  rw [heq]
  refine ⟨rfl, rfl, ?_, ?_, ?_, ?_⟩
  · simp [h2]
  · simp [h2, hdid]
  · simp [h2]
  · rw [List.filter_append, hfil]
    simp [hdjid]

/-- C2 witness: the idempotence statement at a fresh store and a fully
populated completed-job payload. -/
theorem C2_auto_save_idempotent_witness :
    let jd : List (String × JVal) :=
      [("job_id", .s "j1"), ("status", .s "COMPLETED"),
       ("dataset_path", .s "data/iris.csv"), ("job_name", .s "My Job"),
       ("model_type", .s "cnn"),
       ("hyperparameters", .obj [("learning_rate", .num (1/100)),
         ("batch_size", .num 32), ("optimizer", .s "adam")])]
    let store : ModelStore := ⟨[], 0⟩
    (auto_save_model_endpoint store "j1" jd 11).1.code = 201 ∧
    (auto_save_model_endpoint store "j1" jd 11).1.model_id = some store.next_id ∧
    (auto_save_model_endpoint (auto_save_model_endpoint store "j1" jd 11).2
        "j1" jd 12).1.code = 200 ∧
    (auto_save_model_endpoint (auto_save_model_endpoint store "j1" jd 11).2
        "j1" jd 12).1.model_id = some store.next_id ∧
    (auto_save_model_endpoint (auto_save_model_endpoint store "j1" jd 11).2
        "j1" jd 12).2 = (auto_save_model_endpoint store "j1" jd 11).2 ∧
    ((auto_save_model_endpoint store "j1" jd 11).2.models.filter
        (fun d => d.job_id == "j1")).length = 1 := by
  exact C2_auto_save_idempotent ⟨[], 0⟩ "j1" _ 11 12 rfl rfl
    (by simp [list_models])

/-- C6: a submission missing any required field fails with a 400
validation error carrying the first missing item's message (fields
`model_type`, `dataset_path`, `job_name` in order, then the
`hyperparameters` bundle, then `learning_rate`, `batch_size`,
`optimizer` in order), the orchestrator state is unchanged — no job
record created, no task enqueued — and a subsequent `getStatus` on any
id that had no record still answers NotFound. -/
theorem C6_submit_validation (st : OrchState) (jd : List (String × JVal))
    (new_job_id new_task_id : String) (bucketsOk : Bool) (now : Int)
    (msg : String) (hmsg : firstMissingMessage jd = some msg) :
    submit_job st jd new_job_id new_task_id bucketsOk now =
      (.err 400 msg, st) ∧
    ∀ (q : Queue) (id : String) (now2 : Int), lookupJob st.jobs id = none →
      (get_job_status
          (submit_job st jd new_job_id new_task_id bucketsOk now).2
          q id now2).1 = .notFound := by
  have hsub : submit_job st jd new_job_id new_task_id bucketsOk now =
      (.err 400 msg, st) := by
    unfold firstMissingMessage at hmsg
    unfold submit_job
    rcases hmt : jlookup jd "model_type" with _ | vmt
    · simp_all [List.find?]
    · have hne : jd.isEmpty = false := by
        cases jd with
        | nil => simp [jlookup] at hmt
        | cons a l => rfl
      rcases hdp : jlookup jd "dataset_path" with _ | vdp
      · simp_all [List.find?]
      · rcases hjn : jlookup jd "job_name" with _ | vjn
        · simp_all [List.find?]
        · rcases hhp : jlookup jd "hyperparameters" with _ | hp
          · simp_all [List.find?]
          · cases hlr : hp.hasKey "learning_rate" with
            | false => simp_all [List.find?, jgetD]
            | true =>
              cases hbs : hp.hasKey "batch_size" with
              | false => simp_all [List.find?, jgetD]
              | true =>
                cases hop : hp.hasKey "optimizer" with
                | false => simp_all [List.find?, jgetD]
                | true => simp_all [List.find?, jgetD]
  refine ⟨hsub, fun q id now2 hid => ?_⟩
  rw [hsub]
  simp [get_job_status_of_not_found hid]

/-- C6 witness: a submission carrying only `model_type` is rejected
with the message naming `dataset_path`, and a fresh registry still
answers NotFound afterwards. -/
theorem C6_submit_validation_witness :
    submit_job ⟨[], []⟩ [("model_type", .s "cnn")] "j" "t" true 0 =
      (.err 400 "Missing required field: dataset_path", ⟨[], []⟩) ∧
    ∀ (q : Queue) (id : String) (now2 : Int),
      lookupJob (⟨[], []⟩ : OrchState).jobs id = none →
      (get_job_status
          (submit_job ⟨[], []⟩ [("model_type", .s "cnn")] "j" "t" true 0).2
          q id now2).1 = .notFound := by
  exact C6_submit_validation ⟨[], []⟩ [("model_type", .s "cnn")] "j" "t"
    true 0 "Missing required field: dataset_path" rfl
